import Mathlib

/-!
Verification development for the StockOfIndia pipeline.

The definitions below are shallow embeddings of the Python source:

* `insights_generator.py` — beta computation, sentiment aggregation,
  sentiment/market join, rolling means, and the signal classifier;
* `database_manager.py` — article upsert and fetch-window planning;
* `market_data_collector.py` — market-bar upsert and fetch-window planning.

Conventions: pandas `NaN` / undefined numeric values are modelled as
`Option ℚ` with `none` for `NaN`; a comparison against `NaN` is `false`,
as in pandas/numpy. Calendar dates are modelled as natural numbers
(day ordinals), matching the day-granularity `.date()` comparisons in the
source. MongoDB collections are modelled as association lists.
-/

namespace StockOfIndia

/-- NaN-aware strict less-than: in pandas any comparison involving NaN is
False, so a `none` on either side yields `false`. -/
def oLt : Option ℚ → Option ℚ → Bool
  | some a, some b => decide (a < b)
  | _, _ => false

/-- NaN-aware strict greater-than, `a > b` in the Python source. -/
def oGt (a b : Option ℚ) : Bool := oLt b a

/-- One row of the insights dataframe as seen by `generate_signal`
(`insights_generator.py`, lines 155-177). Each numeric field may be NaN. -/
structure InsightRow where
  avg_sentiment : Option ℚ
  close : Option ℚ
  sma_20 : Option ℚ
  sma_50 : Option ℚ
  beta : Option ℚ
  price_to_sma_50_ratio : Option ℚ
deriving DecidableEq

/-- The categorical signal emitted by the classifier. -/
inductive Signal where
  | Buy
  | Sell
  | Neutral
deriving DecidableEq

/-- The `is_long_term_buy` condition of `generate_signal`:
`beta < 1.05 and price_to_sma_50_ratio < 0.95`. -/
def is_long_term_buy (r : InsightRow) : Bool :=
  oLt r.beta (some (105 / 100)) && oLt r.price_to_sma_50_ratio (some (95 / 100))

/-- The `is_bullish_trend` condition of `generate_signal`:
`avg_sentiment > 0.65 and close > sma_20 and sma_20 > sma_50`. -/
def is_bullish_trend (r : InsightRow) : Bool :=
  oGt r.avg_sentiment (some (65 / 100)) && oGt r.close r.sma_20 && oGt r.sma_20 r.sma_50

/-- The `is_bearish_trend` condition of `generate_signal`:
`avg_sentiment < 0.35 and close < sma_20 and sma_20 < sma_50`. -/
def is_bearish_trend (r : InsightRow) : Bool :=
  oLt r.avg_sentiment (some (35 / 100)) && oLt r.close r.sma_20 && oLt r.sma_20 r.sma_50

/-- `generate_signal` from `insights_generator.py` lines 155-175: Buy when
both the long-term gate and the bullish trend hold, else Sell when the
bearish trend holds, else Neutral. -/
def generate_signal (r : InsightRow) : Signal :=
  if is_long_term_buy r && is_bullish_trend r then Signal.Buy
  else if is_bearish_trend r then Signal.Sell
  else Signal.Neutral

/-- The same decision rule with the Sell branch tested before the Buy
branch; used to state order-independence of the two branches. -/
def generate_signal_sell_first (r : InsightRow) : Signal :=
  if is_bearish_trend r then Signal.Sell
  else if is_long_term_buy r && is_bullish_trend r then Signal.Buy
  else Signal.Neutral

/-- An article document as stored by `insert_article_into_mongodb`
(`database_manager.py`, lines 587-645). After the function's
normalisation (`setdefault` for the enrichment fields, `.get` for the
rest), a payload key that the caller omitted and the Python value `None`
are indistinguishable: both are written as `None` by the `$set`. They
are modelled together as `none`. -/
structure Article where
  url : String
  title : Option String
  content : Option String
  publication_date : Option Nat
  source : Option String
  sentiment_score : Option ℚ
  companies_mentioned : List String
  sectors_mentioned : List String
deriving DecidableEq

/-- The article collection: a list of documents, at most one per `url`
(enforced in the source by a unique index on `url`). -/
def ArticleStore := List Article

/-- `insert_article_into_mongodb`: `update_one({url}, {$set: {all seven
fields}}, upsert=True)`. The filter matches at most one document (unique
index); the `$set` names every stored field, so a match is replaced by
the normalised payload wholesale, and a miss appends it. -/
def insert_article_into_mongodb : List Article → Article → List Article
  | [], a => [a]
  | d :: ds, a =>
    if d.url = a.url then a :: ds else d :: insert_article_into_mongodb ds a

/-- A market bar document as written by `fetch_historical_market_data`
(`market_data_collector.py`, lines 146-170): symbol, calendar date and
OHLCV fields. -/
structure MarketBarDoc where
  symbol : String
  date : Nat
  open_ : ℚ
  high : ℚ
  low : ℚ
  close : ℚ
  volume : ℚ
deriving DecidableEq

/-- The market-bar upsert of `fetch_historical_market_data`:
`update_one({symbol, date}, {$set: market_record}, upsert=True)` with a
unique compound index on `(symbol, date)`. -/
def upsert_market_bar : List MarketBarDoc → MarketBarDoc → List MarketBarDoc
  | [], b => [b]
  | d :: ds, b =>
    if d.symbol = b.symbol ∧ d.date = b.date then b :: ds
    else d :: upsert_market_bar ds b

/-- `insights_collection.delete_many({})` (`insights_generator.py`,
line 182): removes every document. -/
def delete_many_all {α : Type} (_store : List α) : List α := []

/-- `insights_collection.insert_many(records)` (`insights_generator.py`,
line 191): appends the new records to the store. -/
def insert_many {α : Type} (store : List α) (records : List α) : List α :=
  store ++ records

/-- The insight write-back of `generate_and_store_insights` (lines
180-197): `delete_many({})` followed by `insert_many(records)`. -/
def replace_insights {α : Type} (store : List α) (records : List α) : List α :=
  insert_many (delete_many_all store) records

/-- Fetch-window planning of `fetch_news_from_finnhub`
(`database_manager.py`, lines 338-353). `latest` is the newest stored
publication date for the source (`none` when the store has no data for
it), `today` the current date. With stored data the window starts one
day after `latest` and is skipped (`none`) when that start lies after
`today`; with no stored data the source falls back to the last seven
days (clamped at day 0 here, where Python would move into the past). -/
def plan_fetch_window_finnhub (latest : Option Nat) (today : Nat) :
    Option (Nat × Nat) :=
  match latest with
  | some d => if today < d + 1 then none else some (d + 1, today)
  | none => some (today - 7, today)

/-- Fetch-window planning of `fetch_historical_market_data`
(`market_data_collector.py`, lines 74-91). With stored data the window
starts one day after the latest stored date; with none it starts at the
caller-provided base date. Either way a start after `today` skips the
symbol (`none`). -/
def plan_fetch_window_market (latest : Option Nat) (base : Nat)
    (today : Nat) : Option (Nat × Nat) :=
  let start := match latest with
    | some d => d + 1
    | none => base
  if today < start then none else some (start, today)

/-- One row of the `sentiment_by_sector` dataframe
(`insights_generator.py`, lines 102-111): a (date, sector) key with the
aggregated mean sentiment and article count. -/
structure SentimentRow where
  date : Nat
  sector : String
  avg_sentiment : ℚ
  num_articles : Nat
deriving DecidableEq

/-- One row of the market dataframe after line 128 added
`market_df['sector'] = market_df['symbol'].map(ticker_to_sector_mapping)`:
`sector` is `none` (pandas NaN) for symbols absent from the mapping.
Only the fields relevant to the join are carried. -/
structure MarketRow where
  date : Nat
  symbol : String
  sector : Option String
  close : ℚ
deriving DecidableEq

/-- One joined insight row, pre-indicator stage. -/
structure JoinedRow where
  date : Nat
  sector : String
  avg_sentiment : ℚ
  num_articles : Nat
  symbol : String
  close : ℚ
deriving DecidableEq

/-- Combining one sentiment row with one matching market row. -/
def combine_rows (s : SentimentRow) (m : MarketRow) : JoinedRow :=
  ⟨s.date, s.sector, s.avg_sentiment, s.num_articles, m.symbol, m.close⟩

/-- The join of `generate_and_store_insights` lines 130-135:
`pd.merge(sentiment_by_sector, market_df, on=['date','sector'],
how='inner')`. An inner merge pairs each left row with every right row
agreeing on both keys (a NaN sector never matches), in left-key order. -/
def merge_sentiment_market (sent : List SentimentRow) (mkt : List MarketRow) :
    List JoinedRow :=
  sent.flatMap (fun s =>
    (mkt.filter (fun m => decide (m.date = s.date ∧ m.sector = some s.sector))).map
      (combine_rows s))

/-- Modelled from the spec: join policy 4.4(b), absent from the source —
a left join on market data that carries every mapped market bar and
fills missing sentiment with `avg_sentiment = 0.5`, `num_articles = 0`. -/
def merge_left_fill (sent : List SentimentRow) (mkt : List MarketRow) :
    List JoinedRow :=
  mkt.filterMap (fun m =>
    m.sector.map (fun sec =>
      match sent.find? (fun s => decide (s.date = m.date ∧ s.sector = sec)) with
      | some s => combine_rows s m
      | none => ⟨m.date, sec, 1 / 2, 0, m.symbol, m.close⟩))

/-- One fetched news document as seen by the sector aggregation
(`insights_generator.py`, lines 86-107), restricted to the fields the
aggregation reads. -/
structure NewsArticleRow where
  publication_date : Nat
  sentiment_score : Option ℚ
  sectors_mentioned : List String
deriving DecidableEq

/-- The rows produced by `news_df.explode('sectors_mentioned')` after the
`find({'sentiment_score': {'$ne': None}})` filter: one
(date, sector, score) row per sector mention. An article with an empty
sector list explodes to a single NaN-sector row, which the subsequent
groupby drops, so it contributes nothing. -/
def exploded_rows (arts : List NewsArticleRow) : List (Nat × String × ℚ) :=
  arts.flatMap (fun a =>
    match a.sentiment_score with
    | none => []
    | some sc => a.sectors_mentioned.map (fun sec => (a.publication_date, sec, sc)))

/-- Distinct group keys, first occurrence kept. -/
def dedup_first : List (Nat × String) → List (Nat × String)
  | [] => []
  | k :: ks => k :: (dedup_first ks).filter (fun k2 => decide (k2 ≠ k))

/-- The scores falling into one (date, sector) group of the exploded rows. -/
def scores_for (rows : List (Nat × String × ℚ)) (k : Nat × String) : List ℚ :=
  rows.filterMap (fun r => if (r.1, r.2.1) = k then some r.2.2 else none)

/-- The `groupby(['publication_date','sectors_mentioned']).agg(avg_sentiment=
('sentiment_score','mean'), num_articles=('sentiment_score','count'))` of
lines 102-107: one output row per distinct (date, sector) key, holding
the mean and the count of that group's scores. -/
def sentiment_by_sector (arts : List NewsArticleRow) :
    List ((Nat × String) × ℚ × Nat) :=
  (dedup_first ((exploded_rows arts).map (fun r => (r.1, r.2.1)))).map
    (fun k =>
      (k, (scores_for (exploded_rows arts) k).sum /
            ((scores_for (exploded_rows arts) k).length : ℚ),
        (scores_for (exploded_rows arts) k).length))

/-- The multiset of scores contributed to the (d, sec) group, read
directly off the articles: every article with a non-null score whose
date is d and whose sector list mentions sec contributes its score. -/
def contributions (arts : List NewsArticleRow) (d : Nat) (sec : String) :
    List ℚ :=
  arts.filterMap (fun a =>
    match a.sentiment_score with
    | none => none
    | some sc =>
      if a.publication_date = d ∧ sec ∈ a.sectors_mentioned then some sc
      else none)

/-- Pandas `Series.rolling(window=N).mean()` over a column given as a
list (`insights_generator.py`, lines 144-145): position i holds the mean
of the trailing N values among the first i+1 when at least N are
available, and NaN otherwise. -/
def rolling_mean (N : Nat) (xs : List ℚ) : List (Option ℚ) :=
  (List.range xs.length).map (fun i =>
    if N ≤ i + 1 then some (((xs.take (i + 1)).drop (i + 1 - N)).sum / (N : ℚ))
    else none)

/-- The `sma_20` column of one symbol's date-sorted close series. -/
def sma_20 (closes : List ℚ) : List (Option ℚ) := rolling_mean 20 closes

/-- The `sma_50` column of one symbol's date-sorted close series. -/
def sma_50 (closes : List ℚ) : List (Option ℚ) := rolling_mean 50 closes

/-- One row of `market_df` as read by `calculate_beta`
(`insights_generator.py`, lines 31-70). -/
structure MarketRec where
  symbol : String
  date : Nat
  close : ℚ
deriving DecidableEq

/-- Helper for `pct_change`: the return of each element against its
predecessor. A zero previous close (division by zero, ±inf in pandas,
degenerate for prices) is modelled as undefined. -/
def pct_change_go (prev : ℚ) : List ℚ → List (Option ℚ)
  | [] => []
  | x :: xs => (if prev = 0 then none else some (x / prev - 1)) :: pct_change_go x xs

/-- Pandas `Series.pct_change()`: NaN on the first row, then
`x[i]/x[i-1] - 1`. -/
def pct_change : List ℚ → List (Option ℚ)
  | [] => []
  | x :: xs => none :: pct_change_go x xs

/-- Arithmetic mean of a list of rationals. -/
def sample_mean (xs : List ℚ) : ℚ := xs.sum / (xs.length : ℚ)

/-- Pandas `Series.var()`: sample variance with ddof = 1. -/
def sample_var (xs : List ℚ) : ℚ :=
  (xs.map (fun x => (x - sample_mean xs) ^ 2)).sum / ((xs.length : ℚ) - 1)

/-- Pandas `Series.cov`: sample covariance of a paired series, ddof = 1. -/
def sample_cov (ps : List (ℚ × ℚ)) : ℚ :=
  ((ps.map (fun p => (p.1 - sample_mean (ps.map Prod.fst)) *
      (p.2 - sample_mean (ps.map Prod.snd)))).sum) / ((ps.length : ℚ) - 1)

/-- The benchmark index of `calculate_beta`. -/
def benchmark_symbol : String := "^NSEI"

/-- Lines 39-40: the benchmark's rows with their `nifty_return` column,
computed on the full benchmark series before any merge. -/
def nifty_with_returns (df : List MarketRec) : List (Nat × Option ℚ) :=
  (((df.filter (fun r => decide (r.symbol = benchmark_symbol))).map
      (fun r => r.date)).zip
    (pct_change ((df.filter (fun r => decide (r.symbol = benchmark_symbol))).map
      (fun r => r.close))))

/-- Line 52: `pd.merge(sector_data, nifty_50_data, on='date')`, keeping
the sector close and the benchmark's return per matched date. Dates are
unique per symbol (unique (symbol, date) index in the store), so the
first match is the only one. -/
def merged_sector_nifty (df : List MarketRec) (symbol : String) :
    List (ℚ × Option ℚ) :=
  (df.filter (fun r => decide (r.symbol = symbol))).filterMap (fun r =>
    ((nifty_with_returns df).find? (fun p => decide (p.1 = r.date))).map
      (fun p => (r.close, p.2)))

/-- Lines 53-56: `sector_return = merged close pct_change`, then
`dropna(subset=['sector_return', 'nifty_return'])`, leaving the paired
return observations. -/
def aligned_returns (df : List MarketRec) (symbol : String) : List (ℚ × ℚ) :=
  ((pct_change ((merged_sector_nifty df symbol).map Prod.fst)).zip
      ((merged_sector_nifty df symbol).map Prod.snd)).filterMap
    (fun p =>
      match p.1, p.2 with
      | some a, some b => some (a, b)
      | _, _ => none)

/-- `calculate_beta` (lines 31-70) for one symbol of `market_df`: the
benchmark maps to 1.0 outright; any other symbol gets
`cov / var` of its aligned returns when more than 10 paired observations
remain after `dropna` and the benchmark variance is nonzero, and NaN
(here `none`) otherwise. Over exact rationals the source's
`pd.isna(covariance)` / `pd.isna(variance)` guards are vacuous: both
statistics of a finite list of rationals are rationals. -/
def calculate_beta (df : List MarketRec) (symbol : String) : Option ℚ :=
  if symbol = benchmark_symbol then some 1
  else if 10 < (aligned_returns df symbol).length then
    if sample_var ((aligned_returns df symbol).map Prod.snd) ≠ 0 then
      some (sample_cov (aligned_returns df symbol) /
        sample_var ((aligned_returns df symbol).map Prod.snd))
    else none
  else none

/-- A concrete insights row whose Sell inputs are all defined and
satisfied while `beta` — an input of the Buy gate — is NaN. -/
def bearish_no_beta_row : InsightRow :=
  ⟨some (2 / 10), some 1, some 2, some 3, none, some (1 / 3)⟩

/-- A stored article that enrichment has already annotated. -/
def enriched_article : Article :=
  ⟨"http://e.com/a", some "t", some "c", some 100, some "Finnhub",
    some (7 / 10), ["TCS"], ["Information Technology"]⟩

/-- A re-ingestion payload for the same url carrying no enrichment
values (the shape every ingestion adapter produces: `sentiment_score =
None`, empty entity lists). -/
def reingest_payload : Article :=
  ⟨"http://e.com/a", some "t", some "c", some 100, some "Finnhub",
    none, [], []⟩

/-- The worked aggregation example: three same-day articles with sectors
A, A, B and scores 0.8, 0.4, 0.6. -/
def c7_example_articles : List NewsArticleRow :=
  [⟨0, some (8 / 10), ["A"]⟩, ⟨0, some (4 / 10), ["A"]⟩, ⟨0, some (6 / 10), ["B"]⟩]

/-- A market history of 13 shared trading days for the benchmark and one
sector index with identical alternating closes: after `pct_change` and
`dropna` exactly 12 paired return observations remain, with nonzero
benchmark variance. -/
def beta_example_df : List MarketRec :=
  [⟨"^NSEI", 0, 1⟩, ⟨"SEC", 0, 1⟩, ⟨"^NSEI", 1, 2⟩, ⟨"SEC", 1, 2⟩,
   ⟨"^NSEI", 2, 1⟩, ⟨"SEC", 2, 1⟩, ⟨"^NSEI", 3, 2⟩, ⟨"SEC", 3, 2⟩,
   ⟨"^NSEI", 4, 1⟩, ⟨"SEC", 4, 1⟩, ⟨"^NSEI", 5, 2⟩, ⟨"SEC", 5, 2⟩,
   ⟨"^NSEI", 6, 1⟩, ⟨"SEC", 6, 1⟩, ⟨"^NSEI", 7, 2⟩, ⟨"SEC", 7, 2⟩,
   ⟨"^NSEI", 8, 1⟩, ⟨"SEC", 8, 1⟩, ⟨"^NSEI", 9, 2⟩, ⟨"SEC", 9, 2⟩,
   ⟨"^NSEI", 10, 1⟩, ⟨"SEC", 10, 1⟩, ⟨"^NSEI", 11, 2⟩, ⟨"SEC", 11, 2⟩,
   ⟨"^NSEI", 12, 1⟩, ⟨"SEC", 12, 1⟩]

/-- A concrete 20-row close series. -/
def c8_closes : List ℚ := List.replicate 20 1

/-- C10: the bullish precondition (`avg_sentiment > 0.65`, `close >
sma_20`, `sma_20 > sma_50`) and the bearish precondition
(`avg_sentiment < 0.35`, `close < sma_20`, `sma_20 < sma_50`) can never
hold on the same row — `avg_sentiment` cannot exceed 0.65 and lie below
0.35 at once — so testing the Sell branch before the Buy branch yields
the same signal on every row. -/
theorem c10_buy_sell_exclusive (r : InsightRow) :
    (is_bullish_trend r && is_bearish_trend r) = false ∧
    generate_signal_sell_first r = generate_signal r := by
  have hex : (is_bullish_trend r && is_bearish_trend r) = false := by
    cases hs : r.avg_sentiment with
    | none => simp [is_bullish_trend, oGt, oLt, hs]
    | some s =>
      by_cases h1 : (65 / 100 : ℚ) < s
      · by_cases h2 : s < (35 / 100 : ℚ)
        · exfalso; linarith
        · simp [is_bearish_trend, oLt, hs, h2]
      · simp [is_bullish_trend, oGt, oLt, hs, h1]
  refine ⟨hex, ?_⟩
  unfold generate_signal generate_signal_sell_first
  cases hb : is_bearish_trend r <;> cases hl : is_long_term_buy r <;>
    cases hbl : is_bullish_trend r <;> simp_all

/-- C6: both upserts are idempotent — running
`insert_article_into_mongodb` twice with the same payload, or the
market-bar `update_one(..., upsert=True)` twice with the same record,
leaves the store exactly as after the first call. -/
theorem c6_upsert_idempotent :
    (∀ (s : List Article) (a : Article),
      insert_article_into_mongodb (insert_article_into_mongodb s a) a =
        insert_article_into_mongodb s a) ∧
    (∀ (s : List MarketBarDoc) (b : MarketBarDoc),
      upsert_market_bar (upsert_market_bar s b) b = upsert_market_bar s b) := by
  constructor
  · intro s a
    induction s with
    | nil => simp [insert_article_into_mongodb]
    | cons d ds ih =>
      by_cases h : d.url = a.url
      · simp [insert_article_into_mongodb, h]
      · simp [insert_article_into_mongodb, h, ih]
  · intro s b
    induction s with
    | nil => simp [upsert_market_bar]
    | cons d ds ih =>
      by_cases h : d.symbol = b.symbol ∧ d.date = b.date
      · simp [upsert_market_bar, h]
      · simp [upsert_market_bar, h, ih]

/-- C4: after the drop-then-bulk-insert write-back succeeds, the Insight
Store holds exactly the newly computed records; any record of the prior
snapshot that is not among the new ones is gone. -/
theorem c4_replace_insights_exact {α : Type} (s rs : List α) (r : α)
    (hr : r ∈ s) (hn : r ∉ rs) :
    replace_insights s rs = rs ∧ r ∉ replace_insights s rs := by
  refine ⟨rfl, ?_⟩
  simpa [replace_insights, insert_many, delete_many_all] using hn

/-- C4 witness: the write-back evaluated on a one-row prior snapshot and
a disjoint new record set. -/
theorem c4_replace_insights_exact_witness :
    replace_insights [(0 : ℕ)] [1] = [1] ∧ (0 : ℕ) ∉ replace_insights [(0 : ℕ)] [1] :=
  c4_replace_insights_exact [0] [1] 0 (by decide) (by decide)

/-- C9: for a source or symbol with stored data, both planners start the
window exactly one day after the latest stored date, never hand a
future start date upstream, and skip the fetch outright when that start
would lie after today. -/
theorem c9_fetch_window_future_guard (latest base today f t : Nat) :
    (plan_fetch_window_finnhub (some latest) today = some (f, t) →
      f = latest + 1 ∧ f ≤ today ∧ t = today) ∧
    (today < latest + 1 → plan_fetch_window_finnhub (some latest) today = none) ∧
    (plan_fetch_window_market (some latest) base today = some (f, t) →
      f = latest + 1 ∧ f ≤ today ∧ t = today) ∧
    (today < latest + 1 → plan_fetch_window_market (some latest) base today = none) := by
  unfold plan_fetch_window_finnhub plan_fetch_window_market
  by_cases h : today < latest + 1 <;> simp [h] <;> omega

/-- C9 witness: the planners evaluated with latest stored date 3 and
today 10 (window planned), and latest 20 with today 10 (skip). -/
theorem c9_fetch_window_future_guard_witness :
    (4 = 3 + 1 ∧ 4 ≤ 10 ∧ 10 = 10) ∧
    plan_fetch_window_finnhub (some 20) 10 = none ∧
    plan_fetch_window_market (some 20) 0 10 = none :=
  ⟨(c9_fetch_window_future_guard 3 0 10 4 10).1 (by decide),
   (c9_fetch_window_future_guard 20 0 10 4 10).2.1 (by decide),
   (c9_fetch_window_future_guard 20 0 10 4 10).2.2.2 (by decide)⟩

/-- C1 counterexample: a trading day with a market bar for a mapped
sector but no sentiment summary. The source's `how='inner'` merge drops
it entirely, while policy 4.4(b) — which the claim asserts — would keep
it with `avg_sentiment = 0.5` and `num_articles = 0`. -/
theorem c1_counterexample :
    merge_sentiment_market [] [⟨5, "^CNXIT", some "Information Technology", 10⟩] = [] ∧
    merge_left_fill [] [⟨5, "^CNXIT", some "Information Technology", 10⟩] =
      [⟨5, "Information Technology", 1 / 2, 0, "^CNXIT", 10⟩] := by
  exact ⟨rfl, rfl⟩

/-- C1 amended: the join implements policy 4.4(a), an inner join — an
insight row exists exactly for the (date, sector) pairs carrying both a
sentiment summary and a market bar, and a market bar with no matching
sentiment summary is dropped, never neutral-filled. -/
theorem c1_amended_inner_join (sent : List SentimentRow)
    (mkt : List MarketRow) (r : JoinedRow) :
    r ∈ merge_sentiment_market sent mkt ↔
      ∃ s ∈ sent, ∃ m ∈ mkt,
        m.date = s.date ∧ m.sector = some s.sector ∧ r = combine_rows s m := by
  simp only [merge_sentiment_market, List.mem_flatMap, List.mem_map,
    List.mem_filter, decide_eq_true_eq]
  constructor
  · rintro ⟨s, hs, m, ⟨hm, hd, hsec⟩, hr⟩
    exact ⟨s, hs, m, hm, hd, hsec, hr.symm⟩
  · rintro ⟨s, hs, m, hm, hd, hsec, hr⟩
    exact ⟨s, hs, m, ⟨hm, hd, hsec⟩, hr.symm⟩

/-- C2 counterexample: upserting a re-ingestion payload that carries no
enrichment values over an already-enriched article resets
`sentiment_score` to None and empties `companies_mentioned` and
`sectors_mentioned` — the `$set` names all seven fields
unconditionally, so omitted fields are not preserved. -/
theorem c2_counterexample :
    insert_article_into_mongodb [enriched_article] reingest_payload =
      [reingest_payload] ∧
    enriched_article.sentiment_score = some (7 / 10) ∧
    reingest_payload.sentiment_score = none ∧
    enriched_article.companies_mentioned = ["TCS"] ∧
    reingest_payload.companies_mentioned = [] := by
  refine ⟨?_, rfl, rfl, rfl, rfl⟩
  simp [insert_article_into_mongodb, enriched_article, reingest_payload]

/-- C2 amended: the upsert is a whole-document overwrite, not a partial
update — after it, the document stored under the payload's url is
exactly the normalised payload (omitted fields stored as their defaults:
None, None, None, None, None, [], []), while membership of documents
under every other url is untouched. -/
theorem c2_amended_full_overwrite (s : List Article) (a : Article) :
    (insert_article_into_mongodb s a).find? (fun d => decide (d.url = a.url)) =
      some a ∧
    (∀ d : Article, d.url ≠ a.url →
      (d ∈ insert_article_into_mongodb s a ↔ d ∈ s)) := by
  constructor
  · induction s with
    | nil => simp [insert_article_into_mongodb, List.find?]
    | cons d ds ih =>
      by_cases h : d.url = a.url
      · simp [insert_article_into_mongodb, h, List.find?]
      · simp only [insert_article_into_mongodb, if_neg h, List.find?,
          decide_eq_true_eq]
        simpa [h] using ih
  · intro d hd
    induction s with
    | nil =>
      simp only [insert_article_into_mongodb, List.mem_singleton,
        List.not_mem_nil, iff_false]
      exact fun hda => hd (by rw [hda])
    | cons e es ih =>
      by_cases h : e.url = a.url
      · have hda : d ≠ a := fun hda => hd (by rw [hda])
        have hde : d ≠ e := fun hde => hd (by rw [hde]; exact h)
        simp [insert_article_into_mongodb, h, hda, hde]
      · simp [insert_article_into_mongodb, h, ih]

/-- C3 counterexample: on a row whose `beta` — an input required for the
Buy rule — is undefined while the Sell inputs are defined and satisfied,
the classifier returns Sell, not Neutral as the claim demands. -/
theorem c3_counterexample :
    bearish_no_beta_row.beta = none ∧
    generate_signal bearish_no_beta_row = Signal.Sell := by
  refine ⟨rfl, ?_⟩
  norm_num [generate_signal, is_long_term_buy, is_bullish_trend,
    is_bearish_trend, oLt, oGt, bearish_no_beta_row]

/-- C3 amended: the classifier is total and always returns one of the
three literals; whenever any of `avg_sentiment`, `close`, `sma_20`,
`sma_50` is undefined the result is Neutral; and whenever `beta` or
`price_to_sma_50_ratio` is undefined the Buy branch cannot fire (though
Sell still can when its own inputs are defined and satisfied). -/
theorem c3_amended_totality (r : InsightRow) :
    (generate_signal r = Signal.Buy ∨ generate_signal r = Signal.Sell ∨
      generate_signal r = Signal.Neutral) ∧
    (r.avg_sentiment = none ∨ r.close = none ∨ r.sma_20 = none ∨
        r.sma_50 = none → generate_signal r = Signal.Neutral) ∧
    (r.beta = none ∨ r.price_to_sma_50_ratio = none →
      generate_signal r ≠ Signal.Buy) := by
  refine ⟨?_, ?_, ?_⟩
  · unfold generate_signal
    split
    · exact Or.inl rfl
    · split
      · exact Or.inr (Or.inl rfl)
      · exact Or.inr (Or.inr rfl)
  · intro h
    have hbull : is_bullish_trend r = false := by
      rcases h with h | h | h | h <;> simp [is_bullish_trend, oGt, oLt, h]
    have hbear : is_bearish_trend r = false := by
      rcases h with h | h | h | h <;> simp [is_bearish_trend, oLt, h]
    simp [generate_signal, hbull, hbear]
  · intro h
    have hl : is_long_term_buy r = false := by
      rcases h with h | h <;> simp [is_long_term_buy, oLt, h]
    simp only [generate_signal, hl, Bool.false_and, Bool.false_eq_true,
      if_false]
    split <;> simp

/-- C3 amended witness: the classifier evaluated on the all-NaN row and
on the bearish row with NaN beta. -/
theorem c3_amended_totality_witness :
    generate_signal ⟨none, none, none, none, none, none⟩ = Signal.Neutral ∧
    generate_signal bearish_no_beta_row ≠ Signal.Buy :=
  ⟨(c3_amended_totality ⟨none, none, none, none, none, none⟩).2.1 (Or.inl rfl),
   (c3_amended_totality bearish_no_beta_row).2.2 (Or.inl rfl)⟩

/-- C8: the rolling mean has one entry per input row; it is undefined
(NaN) at every position with fewer than N trailing rows available and
equals the arithmetic mean of the trailing N closes elsewhere; for
`sma_20` specifically, the first 19 positions are undefined and position
20 (index 19) holds the mean of the first 20 closes. -/
theorem c8_sma_window (N : Nat) (xs : List ℚ) (i : Nat)
    (hi : i < xs.length) :
    (rolling_mean N xs).length = xs.length ∧
    (i + 1 < N → (rolling_mean N xs)[i]? = some none) ∧
    (N ≤ i + 1 →
      (rolling_mean N xs)[i]? =
        some (some (((xs.drop (i + 1 - N)).take N).sum / (N : ℚ)))) ∧
    (i < 19 → (sma_20 xs)[i]? = some none) ∧
    (i = 19 → (sma_20 xs)[i]? = some (some ((xs.take 20).sum / (20 : ℚ)))) := by
  have hget : ∀ M : Nat, (rolling_mean M xs)[i]? =
      some (if M ≤ i + 1 then
        some (((xs.take (i + 1)).drop (i + 1 - M)).sum / (M : ℚ)) else none) := by
    intro M
    simp [rolling_mean, List.getElem?_range hi]
  have hwin : ∀ M : Nat, M ≤ i + 1 →
      (xs.take (i + 1)).drop (i + 1 - M) = (xs.drop (i + 1 - M)).take M := by
    intro M hM
    have harith : i + 1 - M + M = i + 1 := by omega
    rw [List.take_drop, harith]
  refine ⟨by simp [rolling_mean], ?_, ?_, ?_, ?_⟩
  · intro h
    rw [hget N, if_neg (by omega)]
  · intro h
    rw [hget N, if_pos h, hwin N h]
  · intro h
    rw [sma_20, hget 20, if_neg (by omega)]
  · intro h
    subst h
    rw [sma_20, hget 20, if_pos (by omega)]
    simp

/-- C8 witness: `sma_20` of a concrete 20-row close series, at the first
row and at the 20th. -/
theorem c8_sma_window_witness :
    (sma_20 c8_closes)[0]? = some none ∧
    (sma_20 c8_closes)[19]? = some (some ((c8_closes.take 20).sum / (20 : ℚ))) :=
  ⟨(c8_sma_window 20 c8_closes 0 (by norm_num [c8_closes])).2.2.2.1 (by omega),
   (c8_sma_window 20 c8_closes 19 (by norm_num [c8_closes])).2.2.2.2 rfl⟩

/-- With a duplicate-free sector list, the fan-out of one article
restricted to a single sector is that article's score exactly once when
the sector is mentioned and nothing otherwise. -/
theorem filterMap_single_of_nodup (l : List String) (hl : l.Nodup)
    (sec : String) (sc : ℚ) :
    l.filterMap (fun s => if s = sec then some sc else none) =
      if sec ∈ l then [sc] else [] := by
  induction l with
  | nil => simp
  | cons x xs ih =>
    rcases List.nodup_cons.mp hl with ⟨hx, hxs⟩
    by_cases hxe : x = sec
    · subst hxe
      have hnone : xs.filterMap (fun s => if s = x then some sc else none) = [] := by
        rw [List.filterMap_eq_nil_iff]
        intro s hs
        rw [if_neg]
        intro hsx
        exact hx (hsx ▸ hs)
      simp [List.filterMap_cons, hnone]
    · have hsx : sec ≠ x := fun hk => hxe hk.symm
      simp [List.filterMap_cons, hxe, ih hxs, List.mem_cons, hsx]

/-- Deduplication of the group keys preserves membership. -/
theorem mem_dedup_first (ks : List (Nat × String)) (k : Nat × String) :
    k ∈ dedup_first ks ↔ k ∈ ks := by
  induction ks with
  | nil => simp [dedup_first]
  | cons k0 ks ih =>
    by_cases hk : k = k0
    · subst hk
      simp [dedup_first]
    · simp [dedup_first, List.mem_filter, hk, ih]

/-- Head unfolding of `contributions` over one article. -/
theorem contributions_cons (a : NewsArticleRow) (as : List NewsArticleRow)
    (d : Nat) (sec : String) :
    contributions (a :: as) d sec =
      (match a.sentiment_score with
        | none => []
        | some sc =>
          if a.publication_date = d ∧ sec ∈ a.sectors_mentioned then [sc]
          else []) ++ contributions as d sec := by
  unfold contributions
  rw [List.filterMap_cons]
  cases a.sentiment_score with
  | none => simp
  | some sc =>
    by_cases hcond : a.publication_date = d ∧ sec ∈ a.sectors_mentioned
    · simp [hcond]
    · simp [hcond]

/-- Head unfolding of the exploded-rows scores over one article. -/
theorem scores_for_exploded_cons (a : NewsArticleRow)
    (as : List NewsArticleRow) (d : Nat) (sec : String) :
    scores_for (exploded_rows (a :: as)) (d, sec) =
      (match a.sentiment_score with
        | none => []
        | some sc =>
          a.sectors_mentioned.filterMap
            (fun s => if a.publication_date = d ∧ s = sec then some sc
              else none)) ++ scores_for (exploded_rows as) (d, sec) := by
  unfold scores_for exploded_rows
  rw [List.flatMap_cons, List.filterMap_append]
  cases a.sentiment_score with
  | none => simp
  | some sc =>
    rw [List.filterMap_map]
    congr 1
    apply List.filterMap_congr
    intro s _
    simp only [Function.comp_apply, Prod.mk.injEq]

/-- The scores the exploded-and-grouped pipeline collects for a
(date, sector) key are exactly the contributing scores read directly
off the articles, provided each article mentions each sector at most
once. -/
theorem scores_for_eq_contributions (arts : List NewsArticleRow)
    (h : ∀ a ∈ arts, a.sectors_mentioned.Nodup) (d : Nat) (sec : String) :
    scores_for (exploded_rows arts) (d, sec) = contributions arts d sec := by
  revert h
  induction arts with
  | nil => intro h; rfl
  | cons a as ih =>
    intro h
    have ha := h a (List.mem_cons_self a as)
    have ih' := ih (fun b hb => h b (List.mem_cons_of_mem a hb))
    rw [scores_for_exploded_cons, contributions_cons]
    cases hsc : a.sentiment_score with
    | none =>
      dsimp only
      simp only [List.nil_append]
      exact ih'
    | some sc =>
      by_cases hd : a.publication_date = d
      · subst hd
        have hfm : a.sectors_mentioned.filterMap
            (fun s => if a.publication_date = a.publication_date ∧ s = sec
              then some sc else none) =
            a.sectors_mentioned.filterMap
              (fun s => if s = sec then some sc else none) := by
          apply List.filterMap_congr
          intro s _
          by_cases hs : s = sec
          · rw [if_pos ⟨rfl, hs⟩, if_pos hs]
          · rw [if_neg (fun hc => hs hc.2), if_neg hs]
        dsimp only
        rw [hfm, filterMap_single_of_nodup a.sectors_mentioned ha sec sc]
        by_cases hm : sec ∈ a.sectors_mentioned
        · rw [if_pos hm, if_pos ⟨rfl, hm⟩, ih']
        · rw [if_neg hm, if_neg (fun hc => hm hc.2), ih']
      · have hall : a.sectors_mentioned.filterMap
            (fun s => if a.publication_date = d ∧ s = sec then some sc
              else none) = [] := by
          rw [List.filterMap_eq_nil_iff]
          intro s _
          exact if_neg (fun hc => hd hc.1)
        dsimp only
        rw [hall, if_neg (fun hc => hd hc.1), ih']

/-- C7: an article with a non-null sentiment score contributes its full
score to the (date, sector) group of every sector it mentions; each
produced group row holds the arithmetic mean and the count of its
contributing scores, and a group row exists exactly when some article
contributes; on the worked example (A: 0.8, A: 0.4, B: 0.6, same day)
the output is A: avg 0.6 with 2 articles and B: avg 0.6 with 1. -/
theorem c7_sector_fanout (arts : List NewsArticleRow)
    (h : ∀ a ∈ arts, a.sectors_mentioned.Nodup) (d : Nat) (sec : String) :
    (∀ m n, ((d, sec), m, n) ∈ sentiment_by_sector arts →
      n = (contributions arts d sec).length ∧
      m = (contributions arts d sec).sum /
        ((contributions arts d sec).length : ℚ)) ∧
    (contributions arts d sec ≠ [] →
      ((d, sec),
        (contributions arts d sec).sum /
          ((contributions arts d sec).length : ℚ),
        (contributions arts d sec).length) ∈ sentiment_by_sector arts) ∧
    sentiment_by_sector c7_example_articles =
      [((0, "A"), 3 / 5, 2), ((0, "B"), 3 / 5, 1)] := by
  have hsc := scores_for_eq_contributions arts h d sec
  refine ⟨?_, ?_, ?_⟩
  · intro m n hmn
    rcases List.mem_map.mp hmn with ⟨k, _, heq⟩
    rw [Prod.ext_iff] at heq
    obtain ⟨hk, hval⟩ := heq
    rw [Prod.ext_iff] at hval
    obtain ⟨hm, hn⟩ := hval
    simp only at hk hm hn
    subst hk
    rw [hsc] at hm hn
    exact ⟨hn.symm, hm.symm⟩
  · intro hne
    have hkeys : (d, sec) ∈ (exploded_rows arts).map (fun r => (r.1, r.2.1)) := by
      by_contra hnk
      apply hne
      rw [← hsc, scores_for, List.filterMap_eq_nil_iff]
      intro r hr
      rw [if_neg]
      intro hkey
      exact hnk (List.mem_map.mpr ⟨r, hr, hkey⟩)
    have hdk : (d, sec) ∈
        dedup_first ((exploded_rows arts).map (fun r => (r.1, r.2.1))) :=
      (mem_dedup_first _ _).mpr hkeys
    unfold sentiment_by_sector
    exact List.mem_map.mpr ⟨(d, sec), hdk, by rw [hsc]⟩
  · norm_num [sentiment_by_sector, exploded_rows, dedup_first, scores_for,
      c7_example_articles, List.filterMap_cons, List.filter_cons,
      Prod.mk.injEq, (show ("B" : String) ≠ "A" from by decide),
      (show ("A" : String) ≠ "B" from by decide)]

/-- C7 witness: the aggregation evaluated on the worked example. -/
theorem c7_sector_fanout_witness :
    sentiment_by_sector c7_example_articles =
      [((0, "A"), 3 / 5, 2), ((0, "B"), 3 / 5, 1)] :=
  (c7_sector_fanout c7_example_articles
    (by simp [c7_example_articles, List.forall_mem_cons]) 0 "A").2.2

/-- Evaluating the aligned paired returns of the example history: 13
shared dates alternating closes 1 and 2 leave exactly 12 paired return
observations. -/
theorem aligned_returns_beta_example :
    aligned_returns beta_example_df "SEC" =
      [(1, 1), (-(1 / 2), -(1 / 2)), (1, 1), (-(1 / 2), -(1 / 2)),
       (1, 1), (-(1 / 2), -(1 / 2)), (1, 1), (-(1 / 2), -(1 / 2)),
       (1, 1), (-(1 / 2), -(1 / 2)), (1, 1), (-(1 / 2), -(1 / 2))] := by
  norm_num [aligned_returns, merged_sector_nifty, nifty_with_returns,
    beta_example_df, benchmark_symbol, pct_change, pct_change_go,
    List.find?_cons, List.filter_cons, List.zip_cons_cons,
    List.filterMap_cons,
    (show ("SEC" : String) ≠ "^NSEI" from by decide),
    (show ("^NSEI" : String) ≠ "SEC" from by decide)]

/-- C5 counterexample: on the example history the symbol has only 12
paired return observations — fewer than the 20 the claim requires for a
defined beta — yet `calculate_beta` returns a defined value (1), because
the source's threshold is `len(merged_df) > 10`, not ≥ 20. -/
theorem c5_counterexample :
    (aligned_returns beta_example_df "SEC").length = 12 ∧
    calculate_beta beta_example_df "SEC" = some 1 := by
  have h := aligned_returns_beta_example
  constructor
  · rw [h]
    rfl
  · unfold calculate_beta
    rw [if_neg (by decide), h]
    norm_num [sample_var, sample_cov, sample_mean]

/-- C5 amended: the benchmark's beta is exactly 1 by convention, never
computed; any other symbol's beta is undefined when at most 10 paired
return observations survive the date alignment — the source's minimum is
more than 10, not at least 20 — or when the benchmark return variance is
zero, and otherwise equals the sample covariance of the aligned returns
divided by the sample variance of the benchmark returns. -/
theorem c5_amended_threshold (df : List MarketRec) (sym : String)
    (h : sym ≠ benchmark_symbol) :
    calculate_beta df benchmark_symbol = some 1 ∧
    ((aligned_returns df sym).length ≤ 10 → calculate_beta df sym = none) ∧
    (10 < (aligned_returns df sym).length →
      sample_var ((aligned_returns df sym).map Prod.snd) = 0 →
      calculate_beta df sym = none) ∧
    (10 < (aligned_returns df sym).length →
      sample_var ((aligned_returns df sym).map Prod.snd) ≠ 0 →
      calculate_beta df sym =
        some (sample_cov (aligned_returns df sym) /
          sample_var ((aligned_returns df sym).map Prod.snd))) := by
  unfold calculate_beta
  refine ⟨by rw [if_pos rfl], ?_, ?_, ?_⟩
  · intro h1
    rw [if_neg h, if_neg (by omega)]
  · intro h1 h2
    rw [if_neg h, if_pos h1, if_neg (not_not_intro h2)]
  · intro h1 h2
    rw [if_neg h, if_pos h1, if_pos h2]

/-- C5 amended witness: beta evaluated on the example history, where 12
paired observations and nonzero benchmark variance give the covariance
over variance ratio. -/
theorem c5_amended_threshold_witness :
    ("SEC" : String) ≠ benchmark_symbol ∧
    calculate_beta beta_example_df "SEC" =
      some (sample_cov (aligned_returns beta_example_df "SEC") /
        sample_var ((aligned_returns beta_example_df "SEC").map Prod.snd)) :=
  ⟨by decide,
   (c5_amended_threshold beta_example_df "SEC" (by decide)).2.2.2
     (by rw [aligned_returns_beta_example]; decide)
     (by rw [aligned_returns_beta_example]; norm_num [sample_var, sample_mean])⟩

end StockOfIndia
